import Mathlib

/-!
Shallow embedding of the route quality engine of the 10K repository
(src/lib/route-generator.ts and src/lib/danger-zones.ts), together with
theorems checking the natural-language specification against it.

Modelling conventions:
* JavaScript IEEE numbers are modelled as real numbers.
* A GeoJSON LineString is a list of (lng, lat) pairs, as in the source
  (coordinates are stored in longitude-first order).
* Math.random() draws are explicit oracle parameters, one slot per call
  site, so the randomized functions become deterministic in their oracles.
* The external OSRM routing client is an oracle indexed by attempt number;
  a thrown error (transport failure or no-route response) is the value
  none.  The final unguarded fallback call is the oracle slot MAX_ATTEMPTS.
* The turf point-in-polygon test of an external library is a parameter
  pip; the danger-zone set is a parameter list of zones.
-/

namespace TenK

noncomputable section

open scoped Classical

/-- Model of JavaScript Math.atan2: the argument of the complex number
x + y i, which lies in (-pi, pi] and is 0 at the origin, as Math.atan2. -/
def atan2 (y x : ℝ) : ℝ := Complex.arg ((x : ℂ) + (y : ℂ) * Complex.I)

/-- The toRad helper inside haversineM: degrees to radians. -/
def toRad (d : ℝ) : ℝ := d * Real.pi / 180

/-- haversineM from src/lib/route-generator.ts: haversine distance between
two [lng, lat] coordinate pairs, in meters. -/
def haversineM (lng1 lat1 lng2 lat2 : ℝ) : ℝ :=
  let R : ℝ := 6371e3
  let dLat := toRad (lat2 - lat1)
  let dLng := toRad (lng2 - lng1)
  let a := Real.sin (dLat / 2) ^ 2 +
    Real.cos (toRad lat1) * Real.cos (toRad lat2) * Real.sin (dLng / 2) ^ 2
  R * 2 * atan2 (Real.sqrt a) (Real.sqrt (1 - a))

/-- Turn maneuver kinds of the TurnManeuver interface. -/
inductive ManeuverKind where
  | left | right | slight_left | slight_right | uturn
deriving DecidableEq

/-- TurnManeuver from src/lib/route-generator.ts. -/
structure TurnManeuver where
  lat : ℝ
  lng : ℝ
  instruction : String
  kind : ManeuverKind

/-- The data consumed from a successful OSRM response (the fields that
callOSRM returns).  geometry is the LineString coordinate list in
(lng, lat) order. -/
structure RouteResponse where
  distance : ℝ
  duration : ℝ
  geometry : List (ℝ × ℝ)
  maneuvers : List TurnManeuver

/-- RouteResult from src/lib/route-generator.ts. -/
structure RouteResult where
  distance : ℤ
  duration : ℤ
  geometry : List (ℝ × ℝ)
  waypoints : List (ℝ × ℝ)
  stepsEstimate : ℤ
  maneuvers : List TurnManeuver

/-- CandidateRoute from src/lib/route-generator.ts. -/
structure CandidateRoute where
  distance : ℝ
  geometry : List (ℝ × ℝ)
  waypoints : List (ℝ × ℝ)
  maneuvers : List TurnManeuver
  score : ℝ

/-- Model of JavaScript Math.round: round half toward positive infinity. -/
def jsRound (x : ℝ) : ℤ := ⌊x + 1 / 2⌋

/-- buildResult from src/lib/route-generator.ts. -/
def buildResult (distance : ℝ) (geometry waypoints : List (ℝ × ℝ))
    (maneuvers : List TurnManeuver) : RouteResult :=
  { distance := jsRound distance
    duration := jsRound ((distance / 5000) * 3600)
    geometry := geometry
    waypoints := waypoints
    stepsEstimate := jsRound (distance / 0.75)
    maneuvers := maneuvers }

section DangerZones

variable {Zone : Type}

/-- isInDangerZone from src/lib/danger-zones.ts: true when the point
(lat, lng) falls inside some danger zone.  The turf booleanPointInPolygon
call is the parameter pip, fed the GeoJSON-ordered point (lng, lat). -/
def isInDangerZone (zones : List Zone) (pip : ℝ × ℝ → Zone → Bool)
    (lat lng : ℝ) : Bool :=
  zones.any (fun zone => pip (lng, lat) zone)

/-- The sampling loop of routePassesThroughDangerZone: starting at index i
and striding by s + 1, true when some sampled coordinate is in a danger
zone.  (The stride is passed minus one so that it is positive by
construction, as in the source where it is at least 1.) -/
def crossesAux (zones : List Zone) (pip : ℝ × ℝ → Zone → Bool)
    (coords : List (ℝ × ℝ)) (s : ℕ) (i : ℕ) : Bool :=
  if h : i < coords.length then
    isInDangerZone zones pip (coords.getD i (0, 0)).2 (coords.getD i (0, 0)).1
      || crossesAux zones pip coords s (i + (s + 1))
  else false
termination_by coords.length - i
decreasing_by omega

/-- routePassesThroughDangerZone from src/lib/danger-zones.ts: sample every
step-th coordinate, step = max(1, floor(length/50)). -/
def routePassesThroughDangerZone (zones : List Zone)
    (pip : ℝ × ℝ → Zone → Bool) (geometry : List (ℝ × ℝ)) : Bool :=
  let step := max 1 (geometry.length / 50)
  crossesAux zones pip geometry (step - 1) 0

end DangerZones

/-! ### Cul-de-sac (backtracking) detection -/

/-- Grid cell size used by hasCulDeSac (about 5 m in degrees). -/
def CELL_DEG : ℝ := 0.000045

/-- Threshold distance in meters for cul-de-sac detection. -/
def CUL_DE_SAC_THRESHOLD_M : ℝ := 10

/-- Minimum sequence-index gap used by hasCulDeSac. -/
def MIN_SEQ_GAP : ℤ := 15

/-- The grid cell of a (lng, lat) coordinate, as computed in hasCulDeSac:
Math.floor(coords[i][0] / CELL_DEG) and Math.floor(coords[i][1] / CELL_DEG). -/
def gridCell (p : ℝ × ℝ) : ℤ × ℤ := (⌊p.1 / CELL_DEG⌋, ⌊p.2 / CELL_DEG⌋)

/-- Math.floor(total * 0.05): the number of points of the loop-closure zone
excluded at each end by hasCulDeSac. -/
def closureCut (total : ℕ) : ℤ := ⌊(total : ℝ) * 0.05⌋

/-- hasCulDeSac from src/lib/route-generator.ts.  The double loop with its
spatial grid is an early-return search, so it is embedded as the
existence of a pair of indices i, j in the middle zone whose grid cells
are equal or adjacent (the 3x3 neighborhood check), whose sequence gap is
at least MIN_SEQ_GAP, and whose haversine distance is below the
threshold.  Geometries of fewer than 20 points return false. -/
def hasCulDeSac (coords : List (ℝ × ℝ)) : Prop :=
  20 ≤ coords.length ∧
  ∃ i j : ℕ,
    closureCut coords.length ≤ (i : ℤ) ∧
    (i : ℤ) < (coords.length : ℤ) - closureCut coords.length ∧
    closureCut coords.length ≤ (j : ℤ) ∧
    (j : ℤ) < (coords.length : ℤ) - closureCut coords.length ∧
    |(gridCell (coords.getD j (0, 0))).1 - (gridCell (coords.getD i (0, 0))).1| ≤ 1 ∧
    |(gridCell (coords.getD j (0, 0))).2 - (gridCell (coords.getD i (0, 0))).2| ≤ 1 ∧
    MIN_SEQ_GAP ≤ |(j : ℤ) - (i : ℤ)| ∧
    haversineM (coords.getD i (0, 0)).1 (coords.getD i (0, 0)).2
      (coords.getD j (0, 0)).1 (coords.getD j (0, 0)).2 < CUL_DE_SAC_THRESHOLD_M

/-! ### Self-intersection detection -/

/-- The sampling loop of hasSelfIntersection: collect every (s+1)-th
coordinate starting at index i. -/
def sampleAux (coords : List (ℝ × ℝ)) (s : ℕ) (i : ℕ) : List (ℝ × ℝ) :=
  if h : i < coords.length then
    coords.getD i (0, 0) :: sampleAux coords s (i + (s + 1))
  else []
termination_by coords.length - i
decreasing_by omega

/-- The sampled point list of hasSelfIntersection: stride
max(1, floor(total/200)), with the last point appended. -/
def sampledPoints (coords : List (ℝ × ℝ)) : List (ℝ × ℝ) :=
  sampleAux coords (max 1 (coords.length / 200) - 1) 0 ++
    [coords.getD (coords.length - 1) (0, 0)]

/-- The ccw cross-product helper of hasSelfIntersection, on points
p = (ax, ay), q = (bx, by), r = (cx, cy). -/
def segCross (p q r : ℝ × ℝ) : ℝ :=
  (q.1 - p.1) * (r.2 - p.2) - (q.2 - p.2) * (r.1 - p.1)

/-- hasSelfIntersection from src/lib/route-generator.ts, embedded as the
existence of two non-adjacent sampled segments, not both inside the
first/last closure zone of the sampled list, that strictly cross. -/
def hasSelfIntersection (coords : List (ℝ × ℝ)) : Prop :=
  40 ≤ coords.length ∧
  ∃ i j : ℕ,
    i + 2 ≤ j ∧ j + 2 ≤ (sampledPoints coords).length ∧
    ¬((i : ℤ) < max 2 ⌊((sampledPoints coords).length : ℝ) * 0.05⌋ ∧
      ((sampledPoints coords).length : ℤ) - 1 -
        max 2 ⌊((sampledPoints coords).length : ℝ) * 0.05⌋ ≤ (j : ℤ)) ∧
    ¬((j : ℤ) < max 2 ⌊((sampledPoints coords).length : ℝ) * 0.05⌋ ∧
      ((sampledPoints coords).length : ℤ) - 1 -
        max 2 ⌊((sampledPoints coords).length : ℝ) * 0.05⌋ ≤ (i : ℤ)) ∧
    segCross ((sampledPoints coords).getD i (0, 0))
        ((sampledPoints coords).getD (i + 1) (0, 0))
        ((sampledPoints coords).getD j (0, 0)) *
      segCross ((sampledPoints coords).getD i (0, 0))
        ((sampledPoints coords).getD (i + 1) (0, 0))
        ((sampledPoints coords).getD (j + 1) (0, 0)) < 0 ∧
    segCross ((sampledPoints coords).getD j (0, 0))
        ((sampledPoints coords).getD (j + 1) (0, 0))
        ((sampledPoints coords).getD i (0, 0)) *
      segCross ((sampledPoints coords).getD j (0, 0))
        ((sampledPoints coords).getD (j + 1) (0, 0))
        ((sampledPoints coords).getD (i + 1) (0, 0)) < 0

/-! ### Circularity score -/

/-- Bounding-box minimum longitude, folded over the coordinate list. -/
def bboxMinLng (coords : List (ℝ × ℝ)) : ℝ :=
  coords.foldl (fun acc p => min acc p.1) (coords.headD (0, 0)).1

/-- Bounding-box maximum longitude. -/
def bboxMaxLng (coords : List (ℝ × ℝ)) : ℝ :=
  coords.foldl (fun acc p => max acc p.1) (coords.headD (0, 0)).1

/-- Bounding-box minimum latitude. -/
def bboxMinLat (coords : List (ℝ × ℝ)) : ℝ :=
  coords.foldl (fun acc p => min acc p.2) (coords.headD (0, 0)).2

/-- Bounding-box maximum latitude. -/
def bboxMaxLat (coords : List (ℝ × ℝ)) : ℝ :=
  coords.foldl (fun acc p => max acc p.2) (coords.headD (0, 0)).2

/-- The bounding-box width in meters of circularityScore: haversine along
the mid-latitude line. -/
def bboxWidthM (coords : List (ℝ × ℝ)) : ℝ :=
  haversineM (bboxMinLng coords) ((bboxMinLat coords + bboxMaxLat coords) / 2)
    (bboxMaxLng coords) ((bboxMinLat coords + bboxMaxLat coords) / 2)

/-- The bounding-box height in meters of circularityScore: haversine along
the mid-longitude line. -/
def bboxHeightM (coords : List (ℝ × ℝ)) : ℝ :=
  haversineM ((bboxMinLng coords + bboxMaxLng coords) / 2) (bboxMinLat coords)
    ((bboxMinLng coords + bboxMaxLng coords) / 2) (bboxMaxLat coords)

/-- The signed shoelace sum over consecutive coordinate pairs of
circularityScore. -/
def shoelaceSum : List (ℝ × ℝ) → ℝ
  | p :: q :: rest => (p.1 * q.2 - q.1 * p.2) + shoelaceSum (q :: rest)
  | _ => 0

/-- circularityScore from src/lib/route-generator.ts. -/
def circularityScore (coords : List (ℝ × ℝ)) : ℝ :=
  if coords.length < 10 then 0
  else
    let widthM := bboxWidthM coords
    let heightM := bboxHeightM coords
    if widthM < 50 ∨ heightM < 50 then 10
    else
      let aspect := max widthM heightM / min widthM heightM
      let area := |shoelaceSum coords| / 2
      let bboxArea := (bboxMaxLng coords - bboxMinLng coords) *
        (bboxMaxLat coords - bboxMinLat coords)
      let fillRatio := if bboxArea > 0 then area / bboxArea else 0
      let fillPenalty : ℝ := if fillRatio < 0.2 then 3 else if fillRatio < 0.3 then 1 else 0
      (aspect - 1) + fillPenalty

/-! ### Waypoint generation -/

/-- MAX_WAYPOINT_RETRIES from src/lib/route-generator.ts. -/
def MAX_WAYPOINT_RETRIES : ℕ := 3

/-- generateSingleWaypoint from src/lib/route-generator.ts, with the two
Math.random() draws passed explicitly as u and v.  Returns a (lat, lng)
pair, as in the source. -/
def generateSingleWaypoint (centerLat centerLng radiusKm angle : ℝ)
    (u v : ℝ) : ℝ × ℝ :=
  let latDegPerKm := 1 / 111.32
  let lngDegPerKm := 1 / (111.32 * Real.cos (centerLat * Real.pi / 180))
  let r := radiusKm * (0.95 + u * 0.1)
  let jitter := (v - 0.5) * 0.05
  (centerLat + r * latDegPerKm * Real.sin (angle + jitter),
   centerLng + r * lngDegPerKm * Real.cos (angle + jitter))

section Waypoints

variable {Zone : Type}

/-- The target angle for waypoint i of count:
baseAngleOffset + (i / count) * 2 * pi, with baseAngleOffset the random
draw u0 scaled by 2 * pi. -/
def waypointAngle (u0 : ℝ) (count i : ℕ) : ℝ :=
  u0 * (2 * Real.pi) + ((i : ℝ) / (count : ℝ)) * (2 * Real.pi)

/-- The candidate produced by the c-th generateSingleWaypoint call of an
angle's retry loop, fed that call's pair of random draws. -/
def waypointCandidate (centerLat centerLng radiusKm angle : ℝ)
    (draws : ℕ → ℝ × ℝ) (c : ℕ) : ℝ × ℝ :=
  generateSingleWaypoint centerLat centerLng radiusKm angle
    (draws c).1 (draws c).2

/-- The retry loop inside generateSafeWaypoints: starting at retry index
retry with rem retries remaining, draw a candidate and accept it when it
is outside every danger zone.  Returns none when every draw lands inside
a danger zone. -/
def findSafeCandidate (zones : List Zone) (pip : ℝ × ℝ → Zone → Bool)
    (centerLat centerLng radiusKm angle : ℝ) (draws : ℕ → ℝ × ℝ) :
    ℕ → ℕ → Option (ℝ × ℝ)
  | _, 0 => none
  | retry, rem + 1 =>
    if isInDangerZone zones pip
        (waypointCandidate centerLat centerLng radiusKm angle draws retry).1
        (waypointCandidate centerLat centerLng radiusKm angle draws retry).2 then
      findSafeCandidate zones pip centerLat centerLng radiusKm angle draws
        (retry + 1) rem
    else some (waypointCandidate centerLat centerLng radiusKm angle draws retry)

/-- generateSafeWaypoints from src/lib/route-generator.ts.  The random
draws are oracles: u0 is the Math.random() for the base angle offset, and
draws i c is the pair of draws for the c-th call to
generateSingleWaypoint made for waypoint i (c = 0, 1, 2 are the safety
retries, c = MAX_WAYPOINT_RETRIES is the unchecked fallback at
angle + 0.5). -/
def generateSafeWaypoints (zones : List Zone) (pip : ℝ × ℝ → Zone → Bool)
    (centerLat centerLng radiusKm : ℝ) (count : ℕ) (u0 : ℝ)
    (draws : ℕ → ℕ → ℝ × ℝ) : List (ℝ × ℝ) :=
  (List.range count).map (fun (i : ℕ) =>
    match findSafeCandidate zones pip centerLat centerLng radiusKm
      (waypointAngle u0 count i) (draws i) 0 MAX_WAYPOINT_RETRIES with
    | some waypoint => waypoint
    | none =>
      generateSingleWaypoint centerLat centerLng radiusKm
        (waypointAngle u0 count i + 0.5)
        (draws i MAX_WAYPOINT_RETRIES).1 (draws i MAX_WAYPOINT_RETRIES).2)

end Waypoints

/-! ### The convergence loop -/

/-- MAX_ATTEMPTS from src/lib/route-generator.ts. -/
def MAX_ATTEMPTS : ℕ := 20

/-- The initial search radius of generateRoute:
radiusKm = 1.2 * (targetDistanceM / 7500). -/
def initialRadius (targetDistanceM : ℝ) : ℝ := 1.2 * (targetDistanceM / 7500)

/-- The radius rescaling step of generateRoute: multiply by
targetDistanceM / actualDistance and clamp to [0.3, 3.0]. -/
def rescaleRadius (radiusKm targetDistanceM actualDistance : ℝ) : ℝ :=
  max 0.3 (min 3.0 (radiusKm * (targetDistanceM / actualDistance)))

/-- The distance acceptance test of generateRoute:
minDistanceM <= distance <= maxDistanceM. -/
def distanceOk (minD maxD dist : ℝ) : Prop := minD ≤ dist ∧ dist ≤ maxD

/-- The composite score computed for a scored attempt of generateRoute. -/
def attemptScore (minD maxD : ℝ) (result : RouteResponse) : ℝ :=
  (if distanceOk minD maxD result.distance then 0 else 1) +
  (if hasCulDeSac result.geometry then 5 else 0) +
  (if hasSelfIntersection result.geometry then 4 else 0) +
  circularityScore result.geometry

/-- The terminal-success condition of generateRoute:
distanceOk && !culDeSac && shapeOk, where
shapeOk = !selfCross && circScore < 1.5. -/
def passesGates (minD maxD : ℝ) (result : RouteResponse) : Prop :=
  distanceOk minD maxD result.distance ∧ ¬hasCulDeSac result.geometry ∧
  (¬hasSelfIntersection result.geometry ∧ circularityScore result.geometry < 1.5)

/-- The best-candidate update of generateRoute:
if (!bestAny || score < bestAny.score) bestAny = candidate. -/
def updateBest (bestAny : Option CandidateRoute) (candidate : CandidateRoute) :
    Option CandidateRoute :=
  match bestAny with
  | none => some candidate
  | some best => if candidate.score < best.score then some candidate else some best

section Loop

variable {Zone : Type}

/-- The attempt loop of generateRoute together with its two fallbacks.
attempts is the list of remaining attempt indices; osrm is the routing
client oracle (osrm a = none models a thrown error at attempt a, and slot
MAX_ATTEMPTS is the final unguarded call); wp a r is the waypoint ring
generated at attempt a with radius r (generateSafeWaypoints applied to
that attempt's random draws).  The empty-attempts case is the code after
the for loop: return the best candidate if any was recorded, otherwise
perform the final unguarded call whose failure propagates as error. -/
def goAttempts (zones : List Zone) (pip : ℝ × ℝ → Zone → Bool)
    (osrm : ℕ → Option RouteResponse) (wp : ℕ → ℝ → List (ℝ × ℝ))
    (minD maxD targetD : ℝ) :
    List ℕ → ℝ → Option CandidateRoute → Except Unit RouteResult
  | [], radiusKm, bestAny =>
    match bestAny with
    | some best =>
      .ok (buildResult best.distance best.geometry best.waypoints best.maneuvers)
    | none =>
      match osrm MAX_ATTEMPTS with
      | none => .error ()
      | some result =>
        .ok (buildResult result.distance result.geometry
          (wp MAX_ATTEMPTS radiusKm) result.maneuvers)
  | attempt :: rest, radiusKm, bestAny =>
    let waypoints := wp attempt radiusKm
    match osrm attempt with
    | none => goAttempts zones pip osrm wp minD maxD targetD rest radiusKm bestAny
    | some result =>
      if routePassesThroughDangerZone zones pip result.geometry then
        goAttempts zones pip osrm wp minD maxD targetD rest radiusKm bestAny
      else if passesGates minD maxD result then
        .ok (buildResult result.distance result.geometry waypoints result.maneuvers)
      else
        let score := attemptScore minD maxD result
        let bestAny2 := updateBest bestAny
          ⟨result.distance, result.geometry, waypoints, result.maneuvers, score⟩
        let radiusKm2 :=
          if ¬distanceOk minD maxD result.distance then
            rescaleRadius radiusKm targetD result.distance
          else radiusKm
        goAttempts zones pip osrm wp minD maxD targetD rest radiusKm2 bestAny2

/-- The waypoint count of generateRoute:
Math.max(3, Math.min(8, Math.round(targetDistanceM / 1500))). -/
def numWaypoints (targetDistanceM : ℝ) : ℕ :=
  (max 3 (min 8 (jsRound (targetDistanceM / 1500)))).toNat

/-- generateRoute from src/lib/route-generator.ts.  u0s a and draws a are
the random draws consumed by generateSafeWaypoints at attempt a (slot
MAX_ATTEMPTS serves the final fallback call). -/
def generateRoute (zones : List Zone) (pip : ℝ × ℝ → Zone → Bool)
    (osrm : ℕ → Option RouteResponse) (u0s : ℕ → ℝ)
    (draws : ℕ → ℕ → ℕ → ℝ × ℝ) (lat lng : ℝ) (targetSteps : ℝ) :
    Except Unit RouteResult :=
  let targetDistanceM := targetSteps * 0.75
  let minDistanceM := targetDistanceM * 0.9
  let maxDistanceM := targetDistanceM * 1.1
  goAttempts zones pip osrm
    (fun a r => generateSafeWaypoints zones pip lat lng r
      (numWaypoints targetDistanceM) (u0s a) (draws a))
    minDistanceM maxDistanceM targetDistanceM
    (List.range MAX_ATTEMPTS) (initialRadius targetDistanceM) none

end Loop

/-! ### Definitions written from the specification's words, for refinement
claims.  Each is compared against the corresponding definition translated
from the source. -/

/-- Modelled from the spec: the composite score sentence of section 4.3,
"Composite score = (0 if distanceOk else 1) + (5 if backtracking else 0)
+ (4 if selfIntersecting else 0) + circularityScore". -/
def specCompositeScore (distFits backtracking selfIntersecting : Prop)
    (circScore : ℝ) : ℝ :=
  (if distFits then 0 else 1) + (if backtracking then 5 else 0) +
  (if selfIntersecting then 4 else 0) + circScore

/-- Modelled from the spec: fillRatio = area / bboxArea, with the shoelace
area and the bounding-box area in raw coordinate units. -/
def fillRatioSpec (coords : List (ℝ × ℝ)) : ℝ :=
  (|shoelaceSum coords| / 2) /
    ((bboxMaxLng coords - bboxMinLng coords) * (bboxMaxLat coords - bboxMinLat coords))

/-- An attempt is scored when its routing call succeeded and the returned
geometry does not cross a danger zone; only such attempts reach the
quality evaluation. -/
def scoredAt {Zone : Type} (zones : List Zone) (pip : ℝ × ℝ → Zone → Bool)
    (osrm : ℕ → Option RouteResponse) (a : ℕ) : Prop :=
  ∃ result, osrm a = some result ∧
    routePassesThroughDangerZone zones pip result.geometry = false

/-- An attempt is skipped-or-rejected when its routing call failed, its
geometry crossed a danger zone, or it failed the terminal-success gates;
such an attempt never returns from the loop. -/
def skipsAt {Zone : Type} (zones : List Zone) (pip : ℝ × ℝ → Zone → Bool)
    (osrm : ℕ → Option RouteResponse) (minD maxD : ℝ) (a : ℕ) : Prop :=
  osrm a = none ∨ ∃ result, osrm a = some result ∧
    (routePassesThroughDangerZone zones pip result.geometry = true ∨
      ¬passesGates minD maxD result)

/-- The latitude of point n of the backtracking counterexample geometry:
points march north 0.001 degrees per index, except point 25, which is
placed 0.0000891 degrees (about 9.9 m) north of point 5. -/
def latC4 (n : ℕ) : ℝ := if n = 25 then 0.0050891 else (n : ℝ) * 0.001

/-- The backtracking counterexample geometry: 40 points on the meridian
lng = 0.  Points 5 and 25 are under 10 m apart with sequence gap 20, yet
their 5 m grid cells are two cells apart, so the 3x3 neighborhood search
of hasCulDeSac never compares them. -/
def geomC4 : List (ℝ × ℝ) := (List.range 40).map (fun n => ((0 : ℝ), latC4 n))

/-- A geometry on which the backtracking detector does fire: 40 points
marching east along the equator, except that point 25 revisits point 5's
location exactly (same grid cell, gap 20). -/
def geomC4detect : List (ℝ × ℝ) :=
  (List.range 40).map
    (fun (n : ℕ) => ((if n = 25 then 0.005 else (n : ℝ) * 0.001), (0 : ℝ)))

/-! ## Theorems -/

section Theorems

variable {Zone : Type}

/-- A min-fold is bounded by its start. -/
theorem foldl_min_le_start (f : (ℝ × ℝ) → ℝ) (l : List (ℝ × ℝ)) :
    ∀ a : ℝ, l.foldl (fun acc p => min acc (f p)) a ≤ a := by
  induction l with
  | nil => intro a; exact le_rfl
  | cons x l ih =>
    intro a
    exact le_trans (ih (min a (f x))) (min_le_left a (f x))

/-- A max-fold is at least its start. -/
theorem start_le_foldl_max (f : (ℝ × ℝ) → ℝ) (l : List (ℝ × ℝ)) :
    ∀ a : ℝ, a ≤ l.foldl (fun acc p => max acc (f p)) a := by
  induction l with
  | nil => intro a; exact le_rfl
  | cons x l ih =>
    intro a
    exact le_trans (le_max_left a (f x)) (ih (max a (f x)))

/-- The longitude bounding-box folds are ordered. -/
theorem bboxMinLng_le_bboxMaxLng (coords : List (ℝ × ℝ)) :
    bboxMinLng coords ≤ bboxMaxLng coords :=
  le_trans (foldl_min_le_start _ _ _) (start_le_foldl_max _ _ _)

/-- The latitude bounding-box folds are ordered. -/
theorem bboxMinLat_le_bboxMaxLat (coords : List (ℝ × ℝ)) :
    bboxMinLat coords ≤ bboxMaxLat coords :=
  le_trans (foldl_min_le_start _ _ _) (start_le_foldl_max _ _ _)

/-- atan2 recovers the angle of a point on the unit circle. -/
theorem atan2_sin_cos {θ : ℝ} (h1 : -Real.pi < θ) (h2 : θ ≤ Real.pi) :
    atan2 (Real.sin θ) (Real.cos θ) = θ := by
  unfold atan2
  rw [Complex.ofReal_cos, Complex.ofReal_sin]
  exact Complex.arg_cos_add_sin_mul_I ⟨h1, h2⟩

/-- toRad vanishes at zero. -/
theorem toRad_zero : toRad 0 = 0 := by
  unfold toRad; ring

/-- haversineM along a meridian (equal longitudes) is exactly the
radius times the latitude difference in radians, for non-inverted
differences of at most 90 degrees. -/
theorem haversineM_meridian (lng lat1 lat2 : ℝ) (h1 : lat1 ≤ lat2)
    (h2 : lat2 - lat1 ≤ 90) :
    haversineM lng lat1 lng lat2 = 6371e3 * toRad (lat2 - lat1) := by
  have hpi := Real.pi_pos
  have hd0 : 0 ≤ lat2 - lat1 := by linarith
  have hθ0 : 0 ≤ toRad (lat2 - lat1) / 2 := by
    unfold toRad; positivity
  have hmul : (lat2 - lat1) * Real.pi ≤ 90 * Real.pi :=
    mul_le_mul_of_nonneg_right h2 hpi.le
  have hθ4 : toRad (lat2 - lat1) / 2 ≤ Real.pi / 4 := by
    unfold toRad; linarith
  have hsin : (0 : ℝ) ≤ Real.sin (toRad (lat2 - lat1) / 2) :=
    Real.sin_nonneg_of_nonneg_of_le_pi hθ0 (by linarith)
  have hcos : (0 : ℝ) ≤ Real.cos (toRad (lat2 - lat1) / 2) :=
    Real.cos_nonneg_of_mem_Icc ⟨by linarith, by linarith⟩
  simp only [haversineM, sub_self, toRad_zero]
  rw [show (0 : ℝ) / 2 = 0 by norm_num, Real.sin_zero]
  rw [show (0 : ℝ) ^ 2 = 0 by norm_num, mul_zero, add_zero]
  rw [Real.sqrt_sq hsin]
  rw [show (1 : ℝ) - Real.sin (toRad (lat2 - lat1) / 2) ^ 2 =
      Real.cos (toRad (lat2 - lat1) / 2) ^ 2 by
    have := Real.sin_sq_add_cos_sq (toRad (lat2 - lat1) / 2); linarith]
  rw [Real.sqrt_sq hcos]
  rw [atan2_sin_cos (by linarith) (by linarith)]
  ring

/-- haversineM of a point with itself is zero. -/
theorem haversineM_self (lng lat : ℝ) : haversineM lng lat lng lat = 0 := by
  rw [haversineM_meridian lng lat lat le_rfl (by norm_num), sub_self, toRad_zero,
    mul_zero]

/-- C3: for every scored attempt, the composite score computed by
generateRoute equals the specification's formula
(0 if distanceOk else 1) + (5 if backtracking else 0)
+ (4 if selfIntersecting else 0) + circularityScore. -/
theorem claim3_composite_score (minD maxD : ℝ) (result : RouteResponse) :
    attemptScore minD maxD result =
      specCompositeScore (distanceOk minD maxD result.distance)
        (hasCulDeSac result.geometry) (hasSelfIntersection result.geometry)
        (circularityScore result.geometry) := rfl

/-- C6 counterexample: for targetSteps = 30000 (targetDistance 22500 m)
the initial search radius of generateRoute is 3.6 km, outside the claimed
[0.3 km, 3.0 km] range, so the claimed invariant fails at attempt 0 of
that invocation. -/
theorem claim6_counterexample :
    initialRadius (30000 * 0.75) = 3.6 ∧ ¬initialRadius (30000 * 0.75) ≤ 3 := by
  unfold initialRadius
  norm_num

/-- C6 amended: every radius produced by rescaling lies in [0.3, 3.0] km,
and the initial radius 1.2 km * (targetDistance / 7500) lies in that range
whenever targetSteps is between 2500 and 25000 (in particular at the
default 10000); the unclamped initial radius escapes the range for target
distances outside [1875 m, 18750 m]. -/
theorem claim6_amended :
    (∀ radiusKm targetD actual : ℝ,
      0.3 ≤ rescaleRadius radiusKm targetD actual ∧
        rescaleRadius radiusKm targetD actual ≤ 3) ∧
    (∀ targetSteps : ℝ, 2500 ≤ targetSteps → targetSteps ≤ 25000 →
      0.3 ≤ initialRadius (targetSteps * 0.75) ∧
        initialRadius (targetSteps * 0.75) ≤ 3) := by
  constructor
  · intro radiusKm targetD actual
    unfold rescaleRadius
    constructor
    · exact le_max_left _ _
    · exact max_le (by norm_num) (le_trans (min_le_left _ _) (by norm_num))
  · intro targetSteps hlo hhi
    unfold initialRadius
    constructor <;> nlinarith

/-- C6 amended, witness: at targetSteps = 10000 the initial radius is in
range, and a rescale from radius 5 is clamped into range. -/
theorem claim6_amended_witness :
    rescaleRadius 5 7500 1 ≤ 3 ∧ 0.3 ≤ initialRadius (10000 * 0.75) :=
  ⟨(claim6_amended.1 5 7500 1).2,
   (claim6_amended.2 10000 (by norm_num) (by norm_num)).1⟩

/-- The sampling loop of the route-crossing check hits exactly the indices
i, i + (s+1), i + 2(s+1), ... below the length, and returns true iff one
of them is in a danger zone. -/
theorem crossesAux_iff (zones : List Zone) (pip : ℝ × ℝ → Zone → Bool)
    (coords : List (ℝ × ℝ)) (s : ℕ) :
    ∀ n i, coords.length - i ≤ n →
      (crossesAux zones pip coords s i = true ↔
        ∃ k : ℕ, i + k * (s + 1) < coords.length ∧
          isInDangerZone zones pip
            (coords.getD (i + k * (s + 1)) (0, 0)).2
            (coords.getD (i + k * (s + 1)) (0, 0)).1 = true) := by
  intro n
  induction n with
  | zero =>
    intro i hi
    rw [crossesAux]
    rw [dif_neg (by omega)]
    simp only [Bool.false_eq_true, false_iff]
    rintro ⟨k, hk, -⟩
    omega
  | succ n ih =>
    intro i hi
    rw [crossesAux]
    by_cases h : i < coords.length
    · rw [dif_pos h, Bool.or_eq_true]
      constructor
      · rintro (hc | hrec)
        · exact ⟨0, by simpa using h, by simpa using hc⟩
        · obtain ⟨k, hk1, hk2⟩ := (ih (i + (s + 1)) (by omega)).mp hrec
          have harith : i + (s + 1) + k * (s + 1) = i + (k + 1) * (s + 1) := by ring
          rw [harith] at hk1 hk2
          exact ⟨k + 1, hk1, hk2⟩
      · rintro ⟨k, hk1, hk2⟩
        cases k with
        | zero => left; simpa using hk2
        | succ k =>
          right
          have harith : i + (s + 1) + k * (s + 1) = i + (k + 1) * (s + 1) := by ring
          refine (ih (i + (s + 1)) (by omega)).mpr ⟨k, ?_, ?_⟩
          · rw [harith]; exact hk1
          · rw [harith]; exact hk2
    · rw [dif_neg h]
      simp only [Bool.false_eq_true, false_iff]
      rintro ⟨k, hk, -⟩
      omega

/-- C8: the Zone Classifier's point containment is the logical OR of the
point-in-polygon test over all danger zones, and the route-crossing check
samples the geometry at stride max(1, floor(n/50)) — which is 1, hence
every point, when the geometry has fewer than 50 points — returning true
iff some sampled point is contained. -/
theorem claim8_zone_classifier (zones : List Zone) (pip : ℝ × ℝ → Zone → Bool) :
    (∀ lat lng : ℝ, isInDangerZone zones pip lat lng = true ↔
      ∃ zone ∈ zones, pip (lng, lat) zone = true) ∧
    (∀ geometry : List (ℝ × ℝ),
      (routePassesThroughDangerZone zones pip geometry = true ↔
        ∃ k : ℕ, k * max 1 (geometry.length / 50) < geometry.length ∧
          isInDangerZone zones pip
            (geometry.getD (k * max 1 (geometry.length / 50)) (0, 0)).2
            (geometry.getD (k * max 1 (geometry.length / 50)) (0, 0)).1 = true) ∧
      (geometry.length < 50 → max 1 (geometry.length / 50) = 1)) := by
  constructor
  · intro lat lng
    unfold isInDangerZone
    exact List.any_eq_true
  · intro geometry
    constructor
    · unfold routePassesThroughDangerZone
      have hstep : max 1 (geometry.length / 50) - 1 + 1 = max 1 (geometry.length / 50) := by
        omega
      rw [crossesAux_iff zones pip geometry _ geometry.length 0 (by omega)]
      simp only [hstep, zero_add]
    · intro hsmall
      have : geometry.length / 50 = 0 := Nat.div_eq_of_lt hsmall
      omega

/-- C8 witness: with a single all-covering zone, the point containment at
the origin is true, and a two-point geometry is sampled at stride 1. -/
theorem claim8_zone_classifier_witness :
    isInDangerZone [()] (fun _ _ => true) 0 0 = true ∧
      max 1 (([((0 : ℝ), (0 : ℝ)), (1, 1)] : List (ℝ × ℝ)).length / 50) = 1 :=
  ⟨((claim8_zone_classifier [()] (fun _ _ => true)).1 0 0).mpr
      ⟨(), List.mem_singleton.mpr rfl, rfl⟩,
   ((claim8_zone_classifier [()] (fun _ _ => true)).2
      [((0 : ℝ), (0 : ℝ)), (1, 1)]).2 (by norm_num)⟩

/-- C5 counterexample: the two-point geometry at the origin has bounding
box width 0 < 50 m, yet circularityScore returns 0, not 10 — the claim
misses the initial guard returning 0 for geometries of fewer than 10
points. -/
theorem claim5_counterexample :
    (bboxWidthM [((0 : ℝ), (0 : ℝ)), (0, 0)] < 50 ∨
      bboxHeightM [((0 : ℝ), (0 : ℝ)), (0, 0)] < 50) ∧
    circularityScore [((0 : ℝ), (0 : ℝ)), (0, 0)] ≠ 10 := by
  have hminlng : bboxMinLng [((0 : ℝ), (0 : ℝ)), (0, 0)] = 0 := by
    simp [bboxMinLng]
  have hmaxlng : bboxMaxLng [((0 : ℝ), (0 : ℝ)), (0, 0)] = 0 := by
    simp [bboxMaxLng]
  have hminlat : bboxMinLat [((0 : ℝ), (0 : ℝ)), (0, 0)] = 0 := by
    simp [bboxMinLat]
  have hmaxlat : bboxMaxLat [((0 : ℝ), (0 : ℝ)), (0, 0)] = 0 := by
    simp [bboxMaxLat]
  constructor
  · left
    unfold bboxWidthM
    rw [hminlng, hmaxlng, hminlat, hmaxlat]
    rw [show ((0 : ℝ) + 0) / 2 = 0 by norm_num, haversineM_self]
    norm_num
  · have : circularityScore [((0 : ℝ), (0 : ℝ)), (0, 0)] = 0 := by
      unfold circularityScore
      rw [if_pos (by simp)]
    rw [this]
    norm_num

/-- C5 amended: circularityScore returns 0 for geometries of fewer than
10 points; for geometries of at least 10 points it returns exactly 10
when the bounding box width or height is below 50 m, and otherwise
(aspect - 1) + penalty where aspect = max(width,height)/min(width,height)
and the penalty is 3 if fillRatio < 0.2, 1 if fillRatio < 0.3, else 0. -/
theorem claim5_amended (coords : List (ℝ × ℝ)) :
    (coords.length < 10 → circularityScore coords = 0) ∧
    (10 ≤ coords.length →
      (bboxWidthM coords < 50 ∨ bboxHeightM coords < 50) →
      circularityScore coords = 10) ∧
    (10 ≤ coords.length → 50 ≤ bboxWidthM coords → 50 ≤ bboxHeightM coords →
      circularityScore coords =
        (max (bboxWidthM coords) (bboxHeightM coords) /
          min (bboxWidthM coords) (bboxHeightM coords) - 1) +
        (if fillRatioSpec coords < 0.2 then 3
         else if fillRatioSpec coords < 0.3 then 1 else 0)) := by
  refine ⟨?_, ?_, ?_⟩
  · intro h
    unfold circularityScore
    rw [if_pos h]
  · intro hlen hdeg
    unfold circularityScore
    rw [if_neg (by omega)]
    simp only
    rw [if_pos hdeg]
  · intro hlen hw hh
    have hlng : bboxMinLng coords < bboxMaxLng coords := by
      rcases eq_or_lt_of_le (bboxMinLng_le_bboxMaxLng coords) with heq | hlt
      · exfalso
        have : bboxWidthM coords = 0 := by
          unfold bboxWidthM
          rw [heq, haversineM_self]
        linarith
      · exact hlt
    have hlat : bboxMinLat coords < bboxMaxLat coords := by
      rcases eq_or_lt_of_le (bboxMinLat_le_bboxMaxLat coords) with heq | hlt
      · exfalso
        have : bboxHeightM coords = 0 := by
          unfold bboxHeightM
          rw [heq, haversineM_self]
        linarith
      · exact hlt
    have harea : (bboxMaxLng coords - bboxMinLng coords) *
        (bboxMaxLat coords - bboxMinLat coords) > 0 :=
      mul_pos (by linarith) (by linarith)
    unfold circularityScore
    rw [if_neg (by omega)]
    simp only
    rw [if_neg (by push_neg; exact ⟨by linarith, by linarith⟩)]
    rw [if_pos harea]
    rfl

/-- C5 amended, witness: a two-point geometry scores 0, and a ten-point
geometry collapsed onto the origin (bounding box under 50 m) scores
exactly 10. -/
theorem claim5_amended_witness :
    circularityScore [((0 : ℝ), (0 : ℝ)), (0, 0)] = 0 ∧
    circularityScore [((0 : ℝ), (0 : ℝ)), (0, 0), (0, 0), (0, 0), (0, 0),
      (0, 0), (0, 0), (0, 0), (0, 0), (0, 0)] = 10 := by
  constructor
  · exact (claim5_amended _).1 (by simp)
  · refine (claim5_amended _).2.1 (by simp) ?_
    left
    have hminlng : bboxMinLng [((0 : ℝ), (0 : ℝ)), (0, 0), (0, 0), (0, 0),
        (0, 0), (0, 0), (0, 0), (0, 0), (0, 0), (0, 0)] = 0 := by
      simp [bboxMinLng]
    have hmaxlng : bboxMaxLng [((0 : ℝ), (0 : ℝ)), (0, 0), (0, 0), (0, 0),
        (0, 0), (0, 0), (0, 0), (0, 0), (0, 0), (0, 0)] = 0 := by
      simp [bboxMaxLng]
    have hminlat : bboxMinLat [((0 : ℝ), (0 : ℝ)), (0, 0), (0, 0), (0, 0),
        (0, 0), (0, 0), (0, 0), (0, 0), (0, 0), (0, 0)] = 0 := by
      simp [bboxMinLat]
    have hmaxlat : bboxMaxLat [((0 : ℝ), (0 : ℝ)), (0, 0), (0, 0), (0, 0),
        (0, 0), (0, 0), (0, 0), (0, 0), (0, 0), (0, 0)] = 0 := by
      simp [bboxMaxLat]
    unfold bboxWidthM
    rw [hminlng, hmaxlng, hminlat, hmaxlat]
    rw [show ((0 : ℝ) + 0) / 2 = 0 by norm_num, haversineM_self]
    norm_num

/-- Shortcut: the crossing check of the empty geometry is false. -/
theorem routePasses_nil (zones : List Zone) (pip : ℝ × ℝ → Zone → Bool) :
    routePassesThroughDangerZone zones pip [] = false := by
  unfold routePassesThroughDangerZone
  rw [crossesAux, dif_neg (by simp)]

/-- Shortcut: geometries of fewer than 20 points have no cul-de-sac. -/
theorem hasCulDeSac_short {coords : List (ℝ × ℝ)} (h : coords.length < 20) :
    ¬hasCulDeSac coords := by
  rintro ⟨h20, -⟩
  omega

/-- Shortcut: geometries of fewer than 40 points have no detected
self-intersection. -/
theorem hasSelfIntersection_short {coords : List (ℝ × ℝ)} (h : coords.length < 40) :
    ¬hasSelfIntersection coords := by
  rintro ⟨h40, -⟩
  omega

/-- Shortcut: geometries of fewer than 10 points have circularity score 0. -/
theorem circularityScore_short {coords : List (ℝ × ℝ)} (h : coords.length < 10) :
    circularityScore coords = 0 := by
  unfold circularityScore
  rw [if_pos h]

section LoopLemmas

variable (zones : List Zone) (pip : ℝ × ℝ → Zone → Bool)
variable (osrm : ℕ → Option RouteResponse) (wp : ℕ → ℝ → List (ℝ × ℝ))
variable (minD maxD targetD : ℝ)

/-- Loop step: a failed routing call is absorbed and the loop continues
with unchanged state. -/
theorem goAttempts_cons_none (a : ℕ) (rest : List ℕ) (r : ℝ)
    (best : Option CandidateRoute) (h : osrm a = none) :
    goAttempts zones pip osrm wp minD maxD targetD (a :: rest) r best =
      goAttempts zones pip osrm wp minD maxD targetD rest r best := by
  rw [goAttempts, h]

/-- Loop step: a geometry crossing a danger zone is skipped with
unchanged state. -/
theorem goAttempts_cons_cross (a : ℕ) (rest : List ℕ) (r : ℝ)
    (best : Option CandidateRoute) (result : RouteResponse)
    (h1 : osrm a = some result)
    (h2 : routePassesThroughDangerZone zones pip result.geometry = true) :
    goAttempts zones pip osrm wp minD maxD targetD (a :: rest) r best =
      goAttempts zones pip osrm wp minD maxD targetD rest r best := by
  rw [goAttempts, h1]
  simp only [h2, if_true]

/-- Loop step: a scored attempt passing every gate returns its candidate
immediately, whatever attempts remain. -/
theorem goAttempts_cons_pass (a : ℕ) (rest : List ℕ) (r : ℝ)
    (best : Option CandidateRoute) (result : RouteResponse)
    (h1 : osrm a = some result)
    (h2 : routePassesThroughDangerZone zones pip result.geometry = false)
    (h3 : passesGates minD maxD result) :
    goAttempts zones pip osrm wp minD maxD targetD (a :: rest) r best =
      .ok (buildResult result.distance result.geometry (wp a r) result.maneuvers) := by
  rw [goAttempts, h1]
  simp only [h2, Bool.false_eq_true, if_false]
  rw [if_pos h3]

/-- Loop step: a scored attempt failing some gate records itself into the
best candidate and rescales the radius when the distance missed. -/
theorem goAttempts_cons_fail (a : ℕ) (rest : List ℕ) (r : ℝ)
    (best : Option CandidateRoute) (result : RouteResponse)
    (h1 : osrm a = some result)
    (h2 : routePassesThroughDangerZone zones pip result.geometry = false)
    (h3 : ¬passesGates minD maxD result) :
    goAttempts zones pip osrm wp minD maxD targetD (a :: rest) r best =
      goAttempts zones pip osrm wp minD maxD targetD rest
        (if ¬distanceOk minD maxD result.distance then
          rescaleRadius r targetD result.distance
        else r)
        (updateBest best ⟨result.distance, result.geometry, wp a r,
          result.maneuvers, attemptScore minD maxD result⟩) := by
  rw [goAttempts, h1]
  simp only [h2, Bool.false_eq_true, if_false]
  rw [if_neg h3]

/-- A prefix of skipped-or-rejected attempts never returns: the loop
reaches the remaining attempts with some radius and best-candidate
state. -/
theorem goAttempts_skip_all :
    ∀ pre : List ℕ,
      (∀ b ∈ pre, skipsAt zones pip osrm minD maxD b) →
      ∀ (l2 : List ℕ) (r : ℝ) (best : Option CandidateRoute),
        ∃ (r2 : ℝ) (best2 : Option CandidateRoute),
          goAttempts zones pip osrm wp minD maxD targetD (pre ++ l2) r best =
            goAttempts zones pip osrm wp minD maxD targetD l2 r2 best2 := by
  intro pre
  induction pre with
  | nil => intro _ l2 r best; exact ⟨r, best, rfl⟩
  | cons b pre ih =>
    intro hskip l2 r best
    have hb := hskip b (List.mem_cons_self b pre)
    have htail : ∀ c ∈ pre, skipsAt zones pip osrm minD maxD c :=
      fun c hc => hskip c (List.mem_cons_of_mem b hc)
    rw [List.cons_append]
    rcases hb with hnone | ⟨result, hsome, hcross | hfail⟩
    · rw [goAttempts_cons_none zones pip osrm wp minD maxD targetD b _ r best hnone]
      exact ih htail l2 r best
    · rw [goAttempts_cons_cross zones pip osrm wp minD maxD targetD b _ r best
        result hsome hcross]
      exact ih htail l2 r best
    · by_cases hcr : routePassesThroughDangerZone zones pip result.geometry = true
      · rw [goAttempts_cons_cross zones pip osrm wp minD maxD targetD b _ r best
          result hsome hcr]
        exact ih htail l2 r best
      · rw [goAttempts_cons_fail zones pip osrm wp minD maxD targetD b _ r best
          result hsome (by simpa using hcr) hfail]
        exact ih htail l2 _ _

end LoopLemmas

/-- C1: on any invocation of generateRoute, if every attempt before a was
skipped or rejected and attempt a is scored (routing succeeded, geometry
does not cross a danger zone) with its distance inside the acceptance
window, no backtracking, no self-intersection, and circularity score
below 1.5, then generateRoute returns attempt a's candidate route
immediately — the oracles at later attempts are unconstrained, so no
further attempt is performed. -/
theorem claim1_terminal_success (zones : List Zone) (pip : ℝ × ℝ → Zone → Bool)
    (osrm : ℕ → Option RouteResponse) (u0s : ℕ → ℝ) (draws : ℕ → ℕ → ℕ → ℝ × ℝ)
    (lat lng targetSteps : ℝ) (a : ℕ) (result : RouteResponse)
    (ha : a < MAX_ATTEMPTS)
    (h1 : osrm a = some result)
    (h2 : routePassesThroughDangerZone zones pip result.geometry = false)
    (hdist : distanceOk (targetSteps * 0.75 * 0.9) (targetSteps * 0.75 * 1.1)
      result.distance)
    (hback : ¬hasCulDeSac result.geometry)
    (hself : ¬hasSelfIntersection result.geometry)
    (hcirc : circularityScore result.geometry < 1.5)
    (hearlier : ∀ b, b < a →
      skipsAt zones pip osrm (targetSteps * 0.75 * 0.9) (targetSteps * 0.75 * 1.1) b) :
    ∃ radiusKm : ℝ,
      generateRoute zones pip osrm u0s draws lat lng targetSteps =
        .ok (buildResult result.distance result.geometry
          (generateSafeWaypoints zones pip lat lng radiusKm
            (numWaypoints (targetSteps * 0.75)) (u0s a) (draws a))
          result.maneuvers) := by
  unfold generateRoute
  simp only
  have hsum : MAX_ATTEMPTS = (MAX_ATTEMPTS - a) + a := by omega
  have hsplit : List.range MAX_ATTEMPTS =
      List.range' 0 a ++ (a :: List.range' (a + 1) (MAX_ATTEMPTS - a - 1)) := by
    rw [List.range_eq_range']
    conv_lhs => rw [hsum]
    rw [← List.range'_append 0 a (MAX_ATTEMPTS - a) 1]
    simp only [Nat.one_mul, Nat.zero_add]
    rw [show MAX_ATTEMPTS - a = (MAX_ATTEMPTS - a - 1) + 1 from by omega,
      List.range'_succ]
    simp [Nat.add_sub_cancel]
  rw [hsplit]
  obtain ⟨r2, best2, heq⟩ := goAttempts_skip_all zones pip osrm
    (fun b r => generateSafeWaypoints zones pip lat lng r
      (numWaypoints (targetSteps * 0.75)) (u0s b) (draws b))
    (targetSteps * 0.75 * 0.9) (targetSteps * 0.75 * 1.1) (targetSteps * 0.75)
    (List.range' 0 a)
    (fun b hb => hearlier b (by
      have := List.mem_range'_1.mp hb
      omega))
    (a :: List.range' (a + 1) (MAX_ATTEMPTS - a - 1))
    (initialRadius (targetSteps * 0.75)) none
  rw [heq]
  refine ⟨r2, ?_⟩
  exact goAttempts_cons_pass zones pip osrm _ _ _ _ a _ r2 best2 result h1 h2
    ⟨hdist, hback, hself, hcirc⟩

/-- C1 witness: a routing client returning a short fit geometry at
attempt 0 makes generateRoute return immediately with that candidate. -/
theorem claim1_terminal_success_witness :
    ∃ radiusKm : ℝ,
      generateRoute ([] : List Unit) (fun _ (_ : Unit) => false)
        (fun _ => some ⟨7500, 0, [], []⟩) (fun _ => 0)
        (fun _ _ _ => ((0 : ℝ), (0 : ℝ))) 0 0 10000 =
        .ok (buildResult 7500 []
          (generateSafeWaypoints ([] : List Unit) (fun _ (_ : Unit) => false)
            0 0 radiusKm (numWaypoints (10000 * 0.75)) 0
            (fun _ _ => ((0 : ℝ), (0 : ℝ)))) []) := by
  refine claim1_terminal_success ([] : List Unit) (fun _ (_ : Unit) => false)
    (fun _ => some ⟨7500, 0, [], []⟩) (fun _ => 0) (fun _ _ _ => ((0 : ℝ), (0 : ℝ)))
    0 0 10000 0 ⟨7500, 0, [], []⟩ (by norm_num [MAX_ATTEMPTS]) rfl
    (routePasses_nil _ _) ⟨by norm_num, by norm_num⟩
    (hasCulDeSac_short (by simp)) (hasSelfIntersection_short (by simp))
    ?_ (fun b hb => absurd hb (by omega))
  rw [circularityScore_short (by simp)]
  norm_num

/-- C9: when the routing client returns distance = k * targetDistance at
an attempt, with the distance outside the acceptance window, the loop
proceeds to the next attempt with radius rescaled to
clamp(radius * targetDistance / actualDistance, 0.3, 3.0), which equals
clamp(radius / k, 0.3, 3.0); for a radius already inside [0.3, 3] the new
radius moves monotonically from radius toward radius / k, stopping only
at the clamp — so across attempts the radius converges monotonically
toward radius / k until clamped. -/
theorem claim9_radius_convergence (zones : List Zone) (pip : ℝ × ℝ → Zone → Bool)
    (osrm : ℕ → Option RouteResponse) (wp : ℕ → ℝ → List (ℝ × ℝ))
    (targetD k : ℝ) (a : ℕ) (rest : List ℕ) (r : ℝ)
    (best : Option CandidateRoute) (result : RouteResponse)
    (hk : 0 < k) (ht : 0 < targetD)
    (hout : k < 0.9 ∨ 1.1 < k)
    (h1 : osrm a = some result)
    (h2 : routePassesThroughDangerZone zones pip result.geometry = false)
    (hd : result.distance = k * targetD) :
    (∃ best2, goAttempts zones pip osrm wp (targetD * 0.9) (targetD * 1.1)
        targetD (a :: rest) r best =
      goAttempts zones pip osrm wp (targetD * 0.9) (targetD * 1.1) targetD rest
        (rescaleRadius r targetD result.distance) best2) ∧
    rescaleRadius r targetD result.distance = max 0.3 (min 3.0 (r / k)) ∧
    (0.3 ≤ r → r ≤ 3 →
      (1 ≤ k → r / k ≤ max 0.3 (min 3.0 (r / k)) ∧
        max 0.3 (min 3.0 (r / k)) ≤ r) ∧
      (k ≤ 1 → r ≤ max 0.3 (min 3.0 (r / k)) ∧
        max 0.3 (min 3.0 (r / k)) ≤ r / k)) := by
  have hnd : ¬distanceOk (targetD * 0.9) (targetD * 1.1) result.distance := by
    unfold distanceOk
    rw [hd]
    push_neg
    intro hlow
    rcases hout with hlt | hgt
    · nlinarith
    · nlinarith
  refine ⟨?_, ?_, ?_⟩
  · refine ⟨updateBest best ⟨result.distance, result.geometry, wp a r,
      result.maneuvers, attemptScore (targetD * 0.9) (targetD * 1.1) result⟩, ?_⟩
    rw [goAttempts_cons_fail zones pip osrm wp (targetD * 0.9) (targetD * 1.1)
      targetD a rest r best result h1 h2 (fun hp => hnd hp.1)]
    rw [if_pos hnd]
  · unfold rescaleRadius
    rw [hd]
    have ht' : targetD ≠ 0 := ne_of_gt ht
    have hk' : k ≠ 0 := ne_of_gt hk
    have hdiv : r * (targetD / (k * targetD)) = r / k := by
      field_simp
      ring
    rw [hdiv]
  · intro hr0 hr3
    constructor
    · intro hk1
      have hrk : r / k ≤ r := div_le_self (by linarith) hk1
      constructor
      · rw [min_eq_right (by linarith)]
        exact le_max_right _ _
      · exact max_le (by linarith) (le_trans (min_le_right _ _) hrk)
    · intro hk1
      have hrk : r ≤ r / k := by
        rw [le_div_iff₀ hk]
        nlinarith
      constructor
      · exact le_trans (le_min (by linarith) hrk) (le_max_right _ _)
      · exact max_le (by linarith) (min_le_right _ _)

/-- C9 witness: with targetDistance 7500 and a client returning 15000 m
(k = 2), the rescaled radius from 1.2 km is clamp(0.6) and moves
monotonically from 1.2 toward 0.6. -/
theorem claim9_radius_convergence_witness :
    rescaleRadius 1.2 7500 (15000 : ℝ) = max 0.3 (min 3.0 ((1.2 : ℝ) / 2)) ∧
    ((1.2 : ℝ) / 2 ≤ max 0.3 (min 3.0 ((1.2 : ℝ) / 2)) ∧
      max 0.3 (min 3.0 ((1.2 : ℝ) / 2)) ≤ 1.2) := by
  have h := claim9_radius_convergence ([] : List Unit) (fun _ _ => false)
    (fun _ => some ⟨15000, 0, [], []⟩) (fun _ _ => []) 7500 2 0 [] 1.2 none
    ⟨15000, 0, [], []⟩ (by norm_num) (by norm_num) (Or.inr (by norm_num)) rfl
    (routePasses_nil _ _) (by norm_num)
  exact ⟨h.2.1, (h.2.2 (by norm_num) (by norm_num)).1 (by norm_num)⟩

/-- Every successful output of the attempt loop is produced by
buildResult. -/
theorem goAttempts_ok_buildResult (zones : List Zone) (pip : ℝ × ℝ → Zone → Bool)
    (osrm : ℕ → Option RouteResponse) (wp : ℕ → ℝ → List (ℝ × ℝ))
    (minD maxD targetD : ℝ) :
    ∀ (l : List ℕ) (r : ℝ) (best : Option CandidateRoute) (res : RouteResult),
      goAttempts zones pip osrm wp minD maxD targetD l r best = .ok res →
      ∃ d g w m, res = buildResult d g w m := by
  intro l
  induction l with
  | nil =>
    intro r best res h
    cases best with
    | some b =>
      rw [goAttempts] at h
      simp only [Except.ok.injEq] at h
      exact ⟨_, _, _, _, h.symm⟩
    | none =>
      rw [goAttempts] at h
      cases hos : osrm MAX_ATTEMPTS with
      | none =>
        simp only [hos] at h
        exact absurd h (by simp)
      | some result =>
        simp only [hos, Except.ok.injEq] at h
        exact ⟨_, _, _, _, h.symm⟩
  | cons a rest ih =>
    intro r best res h
    rw [goAttempts] at h
    cases hos : osrm a with
    | none =>
      simp only [hos] at h
      exact ih _ _ _ h
    | some result =>
      simp only [hos] at h
      by_cases hcr : routePassesThroughDangerZone zones pip result.geometry = true
      · rw [if_pos hcr] at h
        exact ih _ _ _ h
      · rw [if_neg hcr] at h
        by_cases hp : passesGates minD maxD result
        · rw [if_pos hp] at h
          simp only [Except.ok.injEq] at h
          exact ⟨_, _, _, _, h.symm⟩
        · rw [if_neg hp] at h
          exact ih _ _ _ h

/-- C10: every result returned by generateRoute — terminal success,
best-candidate fallback, or final unguarded call alike — has its duration
equal to round((d/5000)*3600) seconds and its stepsEstimate equal to
round(d/0.75), computed from the route distance d (whose rounding is also
the returned distance); the routing engine's own duration field is never
returned, since the oracle's duration is unconstrained here. -/
theorem claim10_duration_formula (zones : List Zone) (pip : ℝ × ℝ → Zone → Bool)
    (osrm : ℕ → Option RouteResponse) (u0s : ℕ → ℝ) (draws : ℕ → ℕ → ℕ → ℝ × ℝ)
    (lat lng targetSteps : ℝ) (res : RouteResult)
    (h : generateRoute zones pip osrm u0s draws lat lng targetSteps = .ok res) :
    ∃ d : ℝ, res.distance = jsRound d ∧
      res.duration = jsRound ((d / 5000) * 3600) ∧
      res.stepsEstimate = jsRound (d / 0.75) := by
  unfold generateRoute at h
  obtain ⟨d, g, w, m, rfl⟩ := goAttempts_ok_buildResult _ _ _ _ _ _ _ _ _ _ _ h
  exact ⟨d, rfl, rfl, rfl⟩

/-- A concrete run of generateRoute: an all-absorbing client that returns
a fitting empty-geometry 7500 m route at every attempt makes the loop
return at attempt 0. -/
theorem generateRoute_eval_example :
    generateRoute ([] : List Unit) (fun _ (_ : Unit) => false)
      (fun _ => some ⟨7500, 0, [], []⟩) (fun _ => 0)
      (fun _ _ _ => ((0 : ℝ), (0 : ℝ))) 0 0 10000 =
    .ok (buildResult 7500 []
      (generateSafeWaypoints ([] : List Unit) (fun _ (_ : Unit) => false) 0 0
        (initialRadius (10000 * 0.75)) (numWaypoints (10000 * 0.75)) 0
        (fun _ _ => ((0 : ℝ), (0 : ℝ)))) []) := by
  unfold generateRoute
  simp only
  rw [List.range_eq_range',
    show MAX_ATTEMPTS = 19 + 1 from by norm_num [MAX_ATTEMPTS], List.range'_succ]
  exact goAttempts_cons_pass _ _ _ _ _ _ _ 0 _ _ none ⟨7500, 0, [], []⟩ rfl
    (routePasses_nil _ _)
    ⟨⟨by norm_num, by norm_num⟩, hasCulDeSac_short (by simp),
      hasSelfIntersection_short (by simp), by
        rw [circularityScore_short (by simp)]; norm_num⟩

/-- C10 witness: the concrete run above returns a result whose fields
satisfy the duration and steps formulas. -/
theorem claim10_duration_formula_witness :
    ∃ res : RouteResult,
      generateRoute ([] : List Unit) (fun _ (_ : Unit) => false)
        (fun _ => some ⟨7500, 0, [], []⟩) (fun _ => 0)
        (fun _ _ _ => ((0 : ℝ), (0 : ℝ))) 0 0 10000 = .ok res ∧
      ∃ d : ℝ, res.distance = jsRound d ∧
        res.duration = jsRound ((d / 5000) * 3600) ∧
        res.stepsEstimate = jsRound (d / 0.75) :=
  ⟨_, generateRoute_eval_example,
    claim10_duration_formula _ _ _ _ _ _ _ _ _ generateRoute_eval_example⟩

/-- getD of a mapped range is the function value. -/
theorem getD_map_range {α : Type} (f : ℕ → α) (n i : ℕ) (h : i < n) (d : α) :
    ((List.range n).map f).getD i d = f i := by
  rw [List.getD_eq_getElem _ d (by simpa using h)]
  simp

/-- If every draw of the retry window lands inside a danger zone, the
retry loop finds no safe candidate. -/
theorem findSafeCandidate_all_in_zone (zones : List Zone)
    (pip : ℝ × ℝ → Zone → Bool) (centerLat centerLng radiusKm angle : ℝ)
    (draws : ℕ → ℝ × ℝ) :
    ∀ rem retry : ℕ,
      (∀ c, retry ≤ c → c < retry + rem →
        isInDangerZone zones pip
          (waypointCandidate centerLat centerLng radiusKm angle draws c).1
          (waypointCandidate centerLat centerLng radiusKm angle draws c).2 = true) →
      findSafeCandidate zones pip centerLat centerLng radiusKm angle draws
        retry rem = none := by
  intro rem
  induction rem with
  | zero => intro retry _; rw [findSafeCandidate]
  | succ rem ih =>
    intro retry h
    rw [findSafeCandidate]
    rw [if_pos (h retry le_rfl (by omega))]
    exact ih (retry + 1) (fun c hc1 hc2 => h c (by omega) (by omega))

/-- The retry loop accepts the first draw outside every danger zone. -/
theorem findSafeCandidate_first_safe (zones : List Zone)
    (pip : ℝ × ℝ → Zone → Bool) (centerLat centerLng radiusKm angle : ℝ)
    (draws : ℕ → ℝ × ℝ) :
    ∀ rem retry c : ℕ, retry ≤ c → c < retry + rem →
      isInDangerZone zones pip
        (waypointCandidate centerLat centerLng radiusKm angle draws c).1
        (waypointCandidate centerLat centerLng radiusKm angle draws c).2 = false →
      (∀ c2, retry ≤ c2 → c2 < c →
        isInDangerZone zones pip
          (waypointCandidate centerLat centerLng radiusKm angle draws c2).1
          (waypointCandidate centerLat centerLng radiusKm angle draws c2).2 = true) →
      findSafeCandidate zones pip centerLat centerLng radiusKm angle draws
        retry rem = some (waypointCandidate centerLat centerLng radiusKm angle draws c) := by
  intro rem
  induction rem with
  | zero => intro retry c h1 h2 _ _; omega
  | succ rem ih =>
    intro retry c h1 h2 hsafe hbefore
    rw [findSafeCandidate]
    by_cases hc : c = retry
    · subst hc
      rw [if_neg (by simp [hsafe])]
    · have hlt : retry < c := by omega
      rw [if_pos (hbefore retry le_rfl hlt)]
      exact ih (retry + 1) c (by omega) (by omega) hsafe
        (fun c2 ha hb => hbefore c2 (by omega) hb)

/-- C7: the waypoint generator always returns exactly count waypoints;
for each target angle it checks at most MAX_WAYPOINT_RETRIES = 3 drawn
candidates against the zone classifier and accepts the first one outside
every unsafe region; when all 3 draws land inside an unsafe region the
waypoint is generated at angle + 0.5 rad and accepted with no danger-zone
check — so (last conjunct) the generator can return a waypoint lying
inside an unsafe region. -/
theorem claim7_waypoint_retries (zones : List Zone) (pip : ℝ × ℝ → Zone → Bool)
    (centerLat centerLng radiusKm u0 : ℝ) (count : ℕ) (draws : ℕ → ℕ → ℝ × ℝ) :
    (generateSafeWaypoints zones pip centerLat centerLng radiusKm count u0
      draws).length = count ∧
    (∀ i c : ℕ, i < count → c < MAX_WAYPOINT_RETRIES →
      isInDangerZone zones pip
        (waypointCandidate centerLat centerLng radiusKm
          (waypointAngle u0 count i) (draws i) c).1
        (waypointCandidate centerLat centerLng radiusKm
          (waypointAngle u0 count i) (draws i) c).2 = false →
      (∀ c2, c2 < c →
        isInDangerZone zones pip
          (waypointCandidate centerLat centerLng radiusKm
            (waypointAngle u0 count i) (draws i) c2).1
          (waypointCandidate centerLat centerLng radiusKm
            (waypointAngle u0 count i) (draws i) c2).2 = true) →
      (generateSafeWaypoints zones pip centerLat centerLng radiusKm count u0
        draws).getD i (0, 0) =
        waypointCandidate centerLat centerLng radiusKm
          (waypointAngle u0 count i) (draws i) c) ∧
    (∀ i : ℕ, i < count →
      (∀ c, c < MAX_WAYPOINT_RETRIES →
        isInDangerZone zones pip
          (waypointCandidate centerLat centerLng radiusKm
            (waypointAngle u0 count i) (draws i) c).1
          (waypointCandidate centerLat centerLng radiusKm
            (waypointAngle u0 count i) (draws i) c).2 = true) →
      (generateSafeWaypoints zones pip centerLat centerLng radiusKm count u0
        draws).getD i (0, 0) =
        generateSingleWaypoint centerLat centerLng radiusKm
          (waypointAngle u0 count i + 0.5)
          (draws i MAX_WAYPOINT_RETRIES).1 (draws i MAX_WAYPOINT_RETRIES).2) ∧
    isInDangerZone [()] (fun _ (_ : Unit) => true)
      ((generateSafeWaypoints [()] (fun _ (_ : Unit) => true) 0 0 1 1 0
        (fun _ _ => ((0 : ℝ), (0 : ℝ)))).getD 0 (0, 0)).1
      ((generateSafeWaypoints [()] (fun _ (_ : Unit) => true) 0 0 1 1 0
        (fun _ _ => ((0 : ℝ), (0 : ℝ)))).getD 0 (0, 0)).2 = true := by
  refine ⟨?_, ?_, ?_, ?_⟩
  · unfold generateSafeWaypoints
    simp
  · intro i c hi hc hsafe hbefore
    unfold generateSafeWaypoints
    rw [getD_map_range _ count i hi]
    rw [findSafeCandidate_first_safe zones pip centerLat centerLng radiusKm
      (waypointAngle u0 count i) (draws i) MAX_WAYPOINT_RETRIES 0 c
      (Nat.zero_le c) (by omega) hsafe (fun c2 _ hc2 => hbefore c2 hc2)]
  · intro i hi hall
    unfold generateSafeWaypoints
    rw [getD_map_range _ count i hi]
    rw [findSafeCandidate_all_in_zone zones pip centerLat centerLng radiusKm
      (waypointAngle u0 count i) (draws i) MAX_WAYPOINT_RETRIES 0
      (fun c _ hc => hall c (by omega))]
  · simp [isInDangerZone]

/-- C7 witness: with no danger zones, the first draw is accepted for the
single requested waypoint. -/
theorem claim7_waypoint_retries_witness :
    (generateSafeWaypoints ([] : List Unit) (fun _ (_ : Unit) => false) 0 0 1 1 0
      (fun _ _ => ((0 : ℝ), (0 : ℝ)))).getD 0 (0, 0) =
      waypointCandidate 0 0 1 (waypointAngle 0 1 0)
        (fun _ => ((0 : ℝ), (0 : ℝ))) 0 :=
  (claim7_waypoint_retries ([] : List Unit) (fun _ (_ : Unit) => false)
    0 0 1 0 1 (fun _ _ => ((0 : ℝ), (0 : ℝ)))).2.1 0 0 (by norm_num)
    (by norm_num [MAX_WAYPOINT_RETRIES]) (by simp [isInDangerZone])
    (fun c2 h => absurd h (by omega))

section ExhaustLemmas

variable (zones : List Zone) (pip : ℝ × ℝ → Zone → Bool)
variable (osrm : ℕ → Option RouteResponse) (wp : ℕ → ℝ → List (ℝ × ℝ))
variable (minD maxD targetD : ℝ)

/-- With no recorded candidate and no scored attempt, the loop reaches its
end with no recorded candidate. -/
theorem goAttempts_no_scored :
    ∀ (l : List ℕ) (r : ℝ),
      (∀ b ∈ l, ¬scoredAt zones pip osrm b) →
      ∃ r2, goAttempts zones pip osrm wp minD maxD targetD l r none =
        goAttempts zones pip osrm wp minD maxD targetD [] r2 none := by
  intro l
  induction l with
  | nil => intro r _; exact ⟨r, rfl⟩
  | cons b l ih =>
    intro r hns
    have htail : ∀ c ∈ l, ¬scoredAt zones pip osrm c :=
      fun c hc => hns c (List.mem_cons_of_mem b hc)
    cases hos : osrm b with
    | none =>
      rw [goAttempts_cons_none zones pip osrm wp minD maxD targetD b l r none hos]
      exact ih r htail
    | some result =>
      have hcr : routePassesThroughDangerZone zones pip result.geometry = true := by
        by_contra hcr
        exact hns b (List.mem_cons_self b l)
          ⟨result, hos, by simpa using hcr⟩
      rw [goAttempts_cons_cross zones pip osrm wp minD maxD targetD b l r none
        result hos hcr]
      exact ih r htail

/-- End of the loop with no recorded candidate and a failing final call:
the error propagates. -/
theorem goAttempts_nil_final_error (r : ℝ) (h : osrm MAX_ATTEMPTS = none) :
    goAttempts zones pip osrm wp minD maxD targetD [] r none = .error () := by
  rw [goAttempts]
  simp only [h]

/-- End of the loop with no recorded candidate and a succeeding final
call: its result is returned verbatim through buildResult. -/
theorem goAttempts_nil_final_ok (r : ℝ) (result : RouteResponse)
    (h : osrm MAX_ATTEMPTS = some result) :
    goAttempts zones pip osrm wp minD maxD targetD [] r none =
      .ok (buildResult result.distance result.geometry (wp MAX_ATTEMPTS r)
        result.maneuvers) := by
  rw [goAttempts]
  simp only [h]

/-- Exhaustion characterization: if no remaining attempt can pass the
gates, the loop returns a successful result drawn either from the
incoming best candidate or from a scored remaining attempt, whose score
is a lower bound of the incoming best's score and of every scored
remaining attempt's score. -/
theorem goAttempts_best_characterization :
    ∀ l : List ℕ, ∀ (r : ℝ) (best : Option CandidateRoute),
      (∀ b ∈ l, ∀ result, osrm b = some result →
        routePassesThroughDangerZone zones pip result.geometry = false →
        ¬passesGates minD maxD result) →
      (best ≠ none ∨ ∃ b ∈ l, scoredAt zones pip osrm b) →
      ∃ out sc,
        goAttempts zones pip osrm wp minD maxD targetD l r best = .ok out ∧
        ((∃ c, best = some c ∧ sc = c.score ∧
            out = buildResult c.distance c.geometry c.waypoints c.maneuvers) ∨
          (∃ b ∈ l, ∃ result, ∃ w, osrm b = some result ∧
            routePassesThroughDangerZone zones pip result.geometry = false ∧
            sc = attemptScore minD maxD result ∧
            out = buildResult result.distance result.geometry w result.maneuvers)) ∧
        (∀ c, best = some c → sc ≤ c.score) ∧
        (∀ b ∈ l, ∀ result, osrm b = some result →
          routePassesThroughDangerZone zones pip result.geometry = false →
          sc ≤ attemptScore minD maxD result) := by
  intro l
  induction l with
  | nil =>
    intro r best _ hne
    cases best with
    | none =>
      exfalso
      rcases hne with hne | ⟨b, hb, -⟩
      · exact hne rfl
      · exact absurd hb (List.not_mem_nil b)
    | some c =>
      refine ⟨buildResult c.distance c.geometry c.waypoints c.maneuvers, c.score,
        ?_, Or.inl ⟨c, rfl, rfl, rfl⟩, ?_, ?_⟩
      · rw [goAttempts]
      · intro c0 hc0
        cases hc0
        exact le_rfl
      · intro b hb
        exact absurd hb (List.not_mem_nil b)
  | cons b l ih =>
    intro r best hnp hne
    have hnptail : ∀ c ∈ l, ∀ result, osrm c = some result →
        routePassesThroughDangerZone zones pip result.geometry = false →
        ¬passesGates minD maxD result :=
      fun c hc => hnp c (List.mem_cons_of_mem b hc)
    cases hos : osrm b with
    | none =>
      have hne2 : best ≠ none ∨ ∃ c ∈ l, scoredAt zones pip osrm c := by
        rcases hne with h | ⟨b2, hb2, hsc⟩
        · exact Or.inl h
        · rcases List.mem_cons.mp hb2 with rfl | hb2l
          · obtain ⟨result, hr, -⟩ := hsc
            rw [hos] at hr
            exact absurd hr (by simp)
          · exact Or.inr ⟨b2, hb2l, hsc⟩
      obtain ⟨out, sc, hrun, hfrom, hminb, hminl⟩ := ih r best hnptail hne2
      rw [goAttempts_cons_none zones pip osrm wp minD maxD targetD b l r best hos]
      refine ⟨out, sc, hrun, ?_, hminb, ?_⟩
      · rcases hfrom with h | ⟨b2, hb2, rest⟩
        · exact Or.inl h
        · exact Or.inr ⟨b2, List.mem_cons_of_mem b hb2, rest⟩
      · intro b2 hb2 result hr hcr
        rcases List.mem_cons.mp hb2 with rfl | hb2l
        · rw [hos] at hr
          exact absurd hr (by simp)
        · exact hminl b2 hb2l result hr hcr
    | some result =>
      by_cases hcr : routePassesThroughDangerZone zones pip result.geometry = true
      · have hne2 : best ≠ none ∨ ∃ c ∈ l, scoredAt zones pip osrm c := by
          rcases hne with h | ⟨b2, hb2, hsc⟩
          · exact Or.inl h
          · rcases List.mem_cons.mp hb2 with rfl | hb2l
            · obtain ⟨result2, hr, hcr2⟩ := hsc
              rw [hos] at hr
              cases hr
              rw [hcr] at hcr2
              exact absurd hcr2 (by simp)
            · exact Or.inr ⟨b2, hb2l, hsc⟩
        obtain ⟨out, sc, hrun, hfrom, hminb, hminl⟩ := ih r best hnptail hne2
        rw [goAttempts_cons_cross zones pip osrm wp minD maxD targetD b l r best
          result hos hcr]
        refine ⟨out, sc, hrun, ?_, hminb, ?_⟩
        · rcases hfrom with h | ⟨b2, hb2, rest⟩
          · exact Or.inl h
          · exact Or.inr ⟨b2, List.mem_cons_of_mem b hb2, rest⟩
        · intro b2 hb2 result2 hr hcr2
          rcases List.mem_cons.mp hb2 with rfl | hb2l
          · rw [hos] at hr
            cases hr
            rw [hcr] at hcr2
            exact absurd hcr2 (by simp)
          · exact hminl b2 hb2l result2 hr hcr2
      · have hcrf : routePassesThroughDangerZone zones pip result.geometry = false := by
          simpa using hcr
        have hng : ¬passesGates minD maxD result :=
          hnp b (List.mem_cons_self b l) result hos hcrf
        rw [goAttempts_cons_fail zones pip osrm wp minD maxD targetD b l r best
          result hos hcrf hng]
        set cand : CandidateRoute := ⟨result.distance, result.geometry, wp b r,
          result.maneuvers, attemptScore minD maxD result⟩ with hcand
        have hbest2 : updateBest best cand ≠ none := by
          unfold updateBest
          cases best with
          | none => simp
          | some c0 =>
            by_cases h : cand.score < c0.score <;> simp [h]
        obtain ⟨out, sc, hrun, hfrom, hminb, hminl⟩ :=
          ih _ (updateBest best cand) hnptail (Or.inl hbest2)
        refine ⟨out, sc, hrun, ?_, ?_, ?_⟩
        · rcases hfrom with ⟨c, hc, hsc, hout⟩ | ⟨b2, hb2, rest⟩
          · cases best with
            | none =>
              simp only [updateBest, Option.some.injEq] at hc
              refine Or.inr ⟨b, List.mem_cons_self b l, result, wp b r, hos,
                hcrf, ?_, ?_⟩
              · rw [hsc, ← hc]
              · rw [hout, ← hc]
            | some c0 =>
              simp only [updateBest] at hc
              by_cases hlt : cand.score < c0.score
              · rw [if_pos hlt] at hc
                simp only [Option.some.injEq] at hc
                refine Or.inr ⟨b, List.mem_cons_self b l, result, wp b r, hos,
                  hcrf, ?_, ?_⟩
                · rw [hsc, ← hc]
                · rw [hout, ← hc]
              · rw [if_neg hlt] at hc
                simp only [Option.some.injEq] at hc
                exact Or.inl ⟨c0, rfl, by rw [hsc, ← hc], by rw [hout, ← hc]⟩
          · exact Or.inr ⟨b2, List.mem_cons_of_mem b hb2, rest⟩
        · intro c0 hc0
          cases best with
          | none => exact absurd hc0 (by simp)
          | some c1 =>
            cases hc0
            simp only [updateBest] at hminb
            by_cases hlt : cand.score < c0.score
            · rw [if_pos hlt] at hminb
              exact le_trans (hminb cand rfl) (le_of_lt hlt)
            · rw [if_neg hlt] at hminb
              exact hminb c0 rfl
        · intro b2 hb2 result2 hr hcr2
          rcases List.mem_cons.mp hb2 with rfl | hb2l
          · rw [hos] at hr
            cases hr
            cases best with
            | none =>
              simp only [updateBest] at hminb
              exact hminb cand rfl
            | some c0 =>
              simp only [updateBest] at hminb
              by_cases hlt : cand.score < c0.score
              · rw [if_pos hlt] at hminb
                exact hminb cand rfl
              · rw [if_neg hlt] at hminb
                exact le_trans (hminb c0 rfl) (not_lt.mp hlt)
          · exact hminl b2 hb2l result2 hr hcr2

end ExhaustLemmas

/-- C2: routing-client failures and zone-crossing rejections during the
20 budgeted attempts are absorbed per attempt and never abort the search
(no attempt passing the gates is assumed, otherwise the loop ends early);
after the attempts, if at least one candidate was scored, the returned
candidate is a scored attempt's result whose composite score is minimal
among all scored attempts; if zero candidates were scored, one final
unguarded routing call decides the outcome: its result is returned
verbatim and its failure propagates to the caller as the error. -/
theorem claim2_error_absorption (zones : List Zone) (pip : ℝ × ℝ → Zone → Bool)
    (osrm : ℕ → Option RouteResponse) (u0s : ℕ → ℝ) (draws : ℕ → ℕ → ℕ → ℝ × ℝ)
    (lat lng targetSteps : ℝ)
    (hnp : ∀ b, b < MAX_ATTEMPTS → ∀ result, osrm b = some result →
      routePassesThroughDangerZone zones pip result.geometry = false →
      ¬passesGates (targetSteps * 0.75 * 0.9) (targetSteps * 0.75 * 1.1) result) :
    ((∀ b, b < MAX_ATTEMPTS → ¬scoredAt zones pip osrm b) →
      (osrm MAX_ATTEMPTS = none →
        generateRoute zones pip osrm u0s draws lat lng targetSteps = .error ()) ∧
      (∀ result, osrm MAX_ATTEMPTS = some result →
        ∃ r2, generateRoute zones pip osrm u0s draws lat lng targetSteps =
          .ok (buildResult result.distance result.geometry
            (generateSafeWaypoints zones pip lat lng r2
              (numWaypoints (targetSteps * 0.75)) (u0s MAX_ATTEMPTS)
              (draws MAX_ATTEMPTS)) result.maneuvers))) ∧
    ((∃ b, b < MAX_ATTEMPTS ∧ scoredAt zones pip osrm b) →
      ∃ b result w, b < MAX_ATTEMPTS ∧ osrm b = some result ∧
        routePassesThroughDangerZone zones pip result.geometry = false ∧
        generateRoute zones pip osrm u0s draws lat lng targetSteps =
          .ok (buildResult result.distance result.geometry w result.maneuvers) ∧
        ∀ b2, b2 < MAX_ATTEMPTS → ∀ result2, osrm b2 = some result2 →
          routePassesThroughDangerZone zones pip result2.geometry = false →
          attemptScore (targetSteps * 0.75 * 0.9) (targetSteps * 0.75 * 1.1)
              result ≤
            attemptScore (targetSteps * 0.75 * 0.9) (targetSteps * 0.75 * 1.1)
              result2) := by
  constructor
  · intro hnos
    unfold generateRoute
    simp only
    obtain ⟨r2, heq⟩ := goAttempts_no_scored zones pip osrm
      (fun a r => generateSafeWaypoints zones pip lat lng r
        (numWaypoints (targetSteps * 0.75)) (u0s a) (draws a))
      (targetSteps * 0.75 * 0.9) (targetSteps * 0.75 * 1.1) (targetSteps * 0.75)
      (List.range MAX_ATTEMPTS) (initialRadius (targetSteps * 0.75))
      (fun b hb => hnos b (List.mem_range.mp hb))
    rw [heq]
    constructor
    · intro hnone
      exact goAttempts_nil_final_error zones pip osrm _ _ _ _ r2 hnone
    · intro result hsome
      exact ⟨r2, goAttempts_nil_final_ok zones pip osrm _ _ _ _ r2 result hsome⟩
  · rintro ⟨b, hb, hsc⟩
    unfold generateRoute
    simp only
    obtain ⟨out, sc, hrun, hfrom, hminb, hminl⟩ :=
      goAttempts_best_characterization zones pip osrm
        (fun a r => generateSafeWaypoints zones pip lat lng r
          (numWaypoints (targetSteps * 0.75)) (u0s a) (draws a))
        (targetSteps * 0.75 * 0.9) (targetSteps * 0.75 * 1.1) (targetSteps * 0.75)
        (List.range MAX_ATTEMPTS) (initialRadius (targetSteps * 0.75)) none
        (fun b2 hb2 => hnp b2 (List.mem_range.mp hb2))
        (Or.inr ⟨b, List.mem_range.mpr hb, hsc⟩)
    rcases hfrom with ⟨c, hc, -⟩ | ⟨b2, hb2, result, w, hsome, hcross, hscq, hout⟩
    · exact absurd hc (by simp)
    · refine ⟨b2, result, w, List.mem_range.mp hb2, hsome, hcross, ?_, ?_⟩
      · rw [hrun, hout]
      · intro b3 hb3 result3 hr3 hcr3
        rw [← hscq]
        exact hminl b3 (List.mem_range.mpr hb3) result3 hr3 hcr3

/-- C2 witness: with a client failing at every attempt and at the final
call, generateRoute propagates the failure as an error. -/
theorem claim2_error_absorption_witness :
    generateRoute ([] : List Unit) (fun _ (_ : Unit) => false) (fun _ => none)
      (fun _ => 0) (fun _ _ _ => ((0 : ℝ), (0 : ℝ))) 0 0 10000 = .error () :=
  ((claim2_error_absorption ([] : List Unit) (fun _ (_ : Unit) => false)
      (fun _ => none) (fun _ => 0) (fun _ _ _ => ((0 : ℝ), (0 : ℝ))) 0 0 10000
      (fun _ _ result hr => absurd hr (by simp))).1
    (fun _ _ hs => by
      obtain ⟨result, hr, -⟩ := hs
      simp at hr)).1 rfl

/-- The closure-zone cut of a 40-point geometry is 2. -/
theorem closureCut_40 : closureCut 40 = 2 := by
  unfold closureCut
  rw [show ((40 : ℕ) : ℝ) * 0.05 = ((2 : ℤ) : ℝ) by norm_num]
  exact Int.floor_intCast 2

/-- The coordinates of the backtracking counterexample geometry. -/
theorem geomC4_getD (k : ℕ) (hk : k < 40) :
    geomC4.getD k (0, 0) = (0, latC4 k) := by
  unfold geomC4
  exact getD_map_range _ 40 k hk _

/-- Grid-cell separation in the counterexample: any two indices of the
middle zone at sequence gap at least 15 sit at least two latitude cells
apart, so the 3x3 neighborhood search never compares them. -/
theorem latC4_floor_gap (m n : ℕ) (hn : n < 38) (hgap : (m : ℤ) + 15 ≤ n) :
    2 ≤ |⌊latC4 n / CELL_DEG⌋ - ⌊latC4 m / CELL_DEG⌋| := by
  have hdiv : ∀ x : ℝ, x / CELL_DEG = x * (200000 / 9) := by
    intro x
    unfold CELL_DEG
    ring
  have hmn : m + 15 ≤ n := by exact_mod_cast hgap
  by_cases hn25 : n = 25
  · subst hn25
    have hm10 : m ≤ 10 := by omega
    have hm25 : m ≠ 25 := by omega
    have hlatm : latC4 m = (m : ℝ) * 0.001 := by simp [latC4, hm25]
    have hlat25 : latC4 25 = 0.0050891 := by norm_num [latC4]
    rw [hlatm, hlat25, hdiv, hdiv]
    have h25 : ⌊(0.0050891 : ℝ) * (200000 / 9)⌋ = 113 := by
      have h1 : (113 : ℤ) ≤ ⌊(0.0050891 : ℝ) * (200000 / 9)⌋ :=
        Int.le_floor.mpr (by norm_num)
      have h2 : ⌊(0.0050891 : ℝ) * (200000 / 9)⌋ < 114 :=
        Int.floor_lt.mpr (by norm_num)
      omega
    rw [h25]
    by_cases hm5 : m ≤ 5
    · have hcym : ⌊(m : ℝ) * 0.001 * (200000 / 9)⌋ < 112 := by
        apply Int.floor_lt.mpr
        have hmr : (m : ℝ) ≤ 5 := by exact_mod_cast hm5
        nlinarith
      exact le_trans (by omega) (le_abs_self _)
    · have hcym : (133 : ℤ) ≤ ⌊(m : ℝ) * 0.001 * (200000 / 9)⌋ := by
        apply Int.le_floor.mpr
        have hmr : (6 : ℝ) ≤ (m : ℝ) := by exact_mod_cast (by omega : 6 ≤ m)
        nlinarith
      exact le_trans (by omega) (neg_le_abs _)
  · by_cases hm25 : m = 25
    · subst hm25
      omega
    · have hlatm : latC4 m = (m : ℝ) * 0.001 := by simp [latC4, hm25]
      have hlatn : latC4 n = (n : ℝ) * 0.001 := by simp [latC4, hn25]
      rw [hlatm, hlatn, hdiv, hdiv]
      have h1 : (⌊(m : ℝ) * 0.001 * (200000 / 9)⌋ : ℝ) ≤
          (m : ℝ) * 0.001 * (200000 / 9) := Int.floor_le _
      have h2 : (n : ℝ) * 0.001 * (200000 / 9) <
          ⌊(n : ℝ) * 0.001 * (200000 / 9)⌋ + 1 := Int.lt_floor_add_one _
      have hmr : (m : ℝ) + 15 ≤ (n : ℝ) := by exact_mod_cast hgap
      have hdint : (2 : ℤ) < ⌊(n : ℝ) * 0.001 * (200000 / 9)⌋ -
          ⌊(m : ℝ) * 0.001 * (200000 / 9)⌋ := by
        have hreal : (2 : ℝ) < (⌊(n : ℝ) * 0.001 * (200000 / 9)⌋ : ℝ) -
            (⌊(m : ℝ) * 0.001 * (200000 / 9)⌋ : ℝ) := by
          nlinarith
        exact_mod_cast hreal
      exact le_trans (by omega) (le_abs_self _)

/-- C4 counterexample: geomC4 is a 40-point geometry containing two
points (indices 5 and 25, both outside the first/last 5% closure zone)
whose haversine distance is under 10 m with sequence gap 20 at least 15,
yet the backtracking detector flags false, because the two points' 5 m
grid cells are two cells apart and the 3x3 neighborhood search never
compares them.  This refutes the claimed universal sufficiency of the
under-10 m condition. -/
theorem claim4_counterexample :
    geomC4.length = 40 ∧
    closureCut geomC4.length ≤ (5 : ℤ) ∧
    (5 : ℤ) < (geomC4.length : ℤ) - closureCut geomC4.length ∧
    closureCut geomC4.length ≤ (25 : ℤ) ∧
    (25 : ℤ) < (geomC4.length : ℤ) - closureCut geomC4.length ∧
    MIN_SEQ_GAP ≤ |(25 : ℤ) - (5 : ℤ)| ∧
    haversineM (geomC4.getD 5 (0, 0)).1 (geomC4.getD 5 (0, 0)).2
      (geomC4.getD 25 (0, 0)).1 (geomC4.getD 25 (0, 0)).2 <
      CUL_DE_SAC_THRESHOLD_M ∧
    ¬hasCulDeSac geomC4 := by
  have hlen : geomC4.length = 40 := by
    unfold geomC4
    simp
  refine ⟨hlen, ?_, ?_, ?_, ?_, ?_, ?_, ?_⟩
  · rw [hlen, closureCut_40]; norm_num
  · rw [hlen, closureCut_40]; norm_num
  · rw [hlen, closureCut_40]; norm_num
  · rw [hlen, closureCut_40]; norm_num
  · unfold MIN_SEQ_GAP
    norm_num
  · rw [geomC4_getD 5 (by norm_num), geomC4_getD 25 (by norm_num)]
    simp only
    rw [show latC4 5 = 0.005 from by norm_num [latC4],
      show latC4 25 = 0.0050891 from by norm_num [latC4]]
    rw [haversineM_meridian 0 0.005 0.0050891 (by norm_num) (by norm_num)]
    unfold toRad CUL_DE_SAC_THRESHOLD_M
    have hpi := Real.pi_lt_d2
    have hpi0 := Real.pi_pos
    nlinarith
  · rintro ⟨-, i, j, hi1, hi2, hj1, hj2, -, hcy, hgap, -⟩
    rw [hlen, closureCut_40] at hi1 hi2 hj1 hj2
    have hi38 : i < 38 := by omega
    have hj38 : j < 38 := by omega
    rw [geomC4_getD i (by omega), geomC4_getD j (by omega)] at hcy
    simp only [gridCell] at hcy
    unfold MIN_SEQ_GAP at hgap
    rcases le_or_lt ((i : ℤ) + 15) (j : ℤ) with hij | hij
    · have h2 := latC4_floor_gap i j hj38 hij
      linarith
    · have hji : (j : ℤ) + 15 ≤ (i : ℤ) := by
        rcases abs_cases ((j : ℤ) - (i : ℤ)) with ⟨habs, -⟩ | ⟨habs, -⟩ <;> omega
      have h2 := latC4_floor_gap j i hi38 hji
      rw [abs_sub_comm] at hcy
      linarith

/-- C4 amended: the backtracking detector flags true on every geometry of
at least 20 points containing two points outside the first/last 5%
closure zone whose sequence gap is at least 15, whose haversine distance
is under 10 m, AND whose 5 m grid cells are equal or adjacent in both
axes (the grid condition the original claim omitted); conversely, a
detection always exhibits such a pair at gap at least 15 and under 10 m,
with both indices outside the closure zone — so no detection fires with
gap below 15 or solely from closure-zone points. -/
theorem claim4_amended (coords : List (ℝ × ℝ)) :
    (∀ i j : ℕ, 20 ≤ coords.length →
      closureCut coords.length ≤ (i : ℤ) →
      (i : ℤ) < (coords.length : ℤ) - closureCut coords.length →
      closureCut coords.length ≤ (j : ℤ) →
      (j : ℤ) < (coords.length : ℤ) - closureCut coords.length →
      |(gridCell (coords.getD j (0, 0))).1 -
        (gridCell (coords.getD i (0, 0))).1| ≤ 1 →
      |(gridCell (coords.getD j (0, 0))).2 -
        (gridCell (coords.getD i (0, 0))).2| ≤ 1 →
      MIN_SEQ_GAP ≤ |(j : ℤ) - (i : ℤ)| →
      haversineM (coords.getD i (0, 0)).1 (coords.getD i (0, 0)).2
          (coords.getD j (0, 0)).1 (coords.getD j (0, 0)).2 <
        CUL_DE_SAC_THRESHOLD_M →
      hasCulDeSac coords) ∧
    (hasCulDeSac coords →
      ∃ i j : ℕ,
        closureCut coords.length ≤ (i : ℤ) ∧
        (i : ℤ) < (coords.length : ℤ) - closureCut coords.length ∧
        closureCut coords.length ≤ (j : ℤ) ∧
        (j : ℤ) < (coords.length : ℤ) - closureCut coords.length ∧
        MIN_SEQ_GAP ≤ |(j : ℤ) - (i : ℤ)| ∧
        haversineM (coords.getD i (0, 0)).1 (coords.getD i (0, 0)).2
            (coords.getD j (0, 0)).1 (coords.getD j (0, 0)).2 <
          CUL_DE_SAC_THRESHOLD_M) := by
  constructor
  · intro i j hlen hi1 hi2 hj1 hj2 hcx hcy hgap hdist
    exact ⟨hlen, i, j, hi1, hi2, hj1, hj2, hcx, hcy, hgap, hdist⟩
  · rintro ⟨-, i, j, hi1, hi2, hj1, hj2, -, -, hgap, hdist⟩
    exact ⟨i, j, hi1, hi2, hj1, hj2, hgap, hdist⟩

/-- C4 amended, witness: the detector fires on the revisiting geometry,
whose points 5 and 25 share a grid cell at distance 0 with gap 20. -/
theorem claim4_amended_witness : hasCulDeSac geomC4detect := by
  have hlen : geomC4detect.length = 40 := by
    unfold geomC4detect
    simp
  have hgd : ∀ k, k < 40 → geomC4detect.getD k (0, 0) =
      ((if k = 25 then 0.005 else (k : ℝ) * 0.001), (0 : ℝ)) := by
    intro k hk
    unfold geomC4detect
    exact getD_map_range _ 40 k hk _
  have h5 : geomC4detect.getD 5 (0, 0) = ((0.005 : ℝ), (0 : ℝ)) := by
    rw [hgd 5 (by norm_num)]
    norm_num
  have h25 : geomC4detect.getD 25 (0, 0) = ((0.005 : ℝ), (0 : ℝ)) := by
    rw [hgd 25 (by norm_num)]
    norm_num
  refine (claim4_amended geomC4detect).1 5 25 ?_ ?_ ?_ ?_ ?_ ?_ ?_ ?_ ?_
  · rw [hlen]
    norm_num
  · rw [hlen, closureCut_40]
    norm_num
  · rw [hlen, closureCut_40]
    norm_num
  · rw [hlen, closureCut_40]
    norm_num
  · rw [hlen, closureCut_40]
    norm_num
  · rw [h5, h25]
    simp
  · rw [h5, h25]
    simp
  · unfold MIN_SEQ_GAP
    norm_num
  · rw [h5, h25]
    simp only
    rw [haversineM_self]
    unfold CUL_DE_SAC_THRESHOLD_M
    norm_num

end Theorems

end

end TenK
